import Mathlib

/-!
# serial_speed.h : the serial line speed shared by the daemon and the sketch

The header `serial_speed.h` holds two object-like macros and comments.  It is
embedded here as its text, line by line, together with the part of C
preprocessing that gives the text its meaning: line splicing, line comments,
the `#define` directive, and the replacement of an object-like macro by its
body.  An identifier that the header does not define (here the termios token
`B115200`) is resolved in the token environment of the platform the including
program is built for; an identifier that nobody defines has no value, which is
how a failed build is represented.
-/

namespace SerialSpeed

/-! ## The header text -/

/-- The seventeen lines of `serial_speed.h`, without their line ends. -/
def serial_speed_h : List String :=
  [ "//"
  , "// File shared by 2 very different programs, that MUST share information about"
  , "// the serial line (USB actually) speed."
  , "//   mapper-devusb.c    daemon to pass on orders to Arduino board"
  , "//   transcode.ino      Arduino sketch to (among others things) read from USB"
  , "//                      the orders sent by mapper-devusb daemon"
  , ""
  , "// Copyright 2020 Sébastien Millet"
  , ""
  , ""
  , "    // Used by mapper-devusb.c"
  , "    // Constant is speed_t, to call cfsetospeed"
  , "#define SERIAL_SPEED_SPEED_T B115200"
  , ""
  , "    // Used by transcode.ino"
  , "    // Constant is a regular integer, to call Serial.begin"
  , "#define SERIAL_SPEED_INTEGER 115200"
  ]

/-! ## Lexical layer -/

/-- Horizontal white space inside a line: blank and tab. -/
def isBlankChar (c : Char) : Bool :=
  c.toNat == 32 || c.toNat == 9

/-- Decimal digit. -/
def isDigitChar (c : Char) : Bool :=
  decide (48 ≤ c.toNat) && decide (c.toNat ≤ 57)

/-- First character of a C identifier: a letter or the underscore. -/
def isIdentStart (c : Char) : Bool :=
  (decide (65 ≤ c.toNat) && decide (c.toNat ≤ 90))
    || (decide (97 ≤ c.toNat) && decide (c.toNat ≤ 122))
    || c.toNat == 95

/-- Later character of a C identifier. -/
def isIdentChar (c : Char) : Bool :=
  isIdentStart c || isDigitChar c

/-- Drop the white space a line or a line rest starts with. -/
def skipBlanks : List Char → List Char
  | [] => []
  | c :: cs => if isBlankChar c then skipBlanks cs else c :: cs

/-- Split a character list at the first character that fails `p`. -/
def spanChars (p : Char → Bool) : List Char → List Char × List Char
  | [] => ([], [])
  | c :: cs =>
    if p c then
      let r := spanChars p cs
      (c :: r.1, r.2)
    else
      ([], c :: cs)

/-- Value of a run of decimal digits, most significant first. -/
def decimalValue (ds : List Char) : Nat :=
  ds.foldl (fun acc d => 10 * acc + (d.toNat - 48)) 0

/-- Preprocessing tokens of a macro body, as far as this header needs them. -/
inductive Tok where
  | ident (name : String)
  | intLit (value : Nat)
  | other (text : String)
  deriving DecidableEq, Repr

/-- Tokens of a line rest.  A `//` ends the rest.  An identifier is a maximal
run of identifier characters; a decimal constant is a maximal run of
identifier characters that starts with a digit from 1 to 9 and holds digits
only; every other maximal run of non-blank characters is kept as `other`.
The fuel bounds the number of characters looked at. -/
def tokenize : Nat → List Char → List Tok
  | 0, _ => []
  | fuel + 1, cs =>
    match skipBlanks cs with
    | [] => []
    | c :: rest =>
      if c.toNat == 47 && (rest.head?.map Char.toNat) == some 47 then []
      else if isIdentStart c then
        let r := spanChars isIdentChar (c :: rest)
        Tok.ident (String.mk r.1) :: tokenize fuel r.2
      else if isDigitChar c then
        let r := spanChars isIdentChar (c :: rest)
        if c.toNat != 48 && r.1.all isDigitChar then
          Tok.intLit (decimalValue r.1) :: tokenize fuel r.2
        else
          Tok.other (String.mk r.1) :: tokenize fuel r.2
      else
        let r := spanChars (fun d => !isBlankChar d) (c :: rest)
        Tok.other (String.mk r.1) :: tokenize fuel r.2

/-! ## Line layer -/

/-- What a logical line of the header is. -/
inductive Line where
  | blank
  | comment (text : String)
  | define (name : String) (body : List Tok)
  | directive (text : String)
  | code (text : String)
  deriving DecidableEq, Repr

/-- Join a line that ends in a backslash with the line after it. -/
def splice : List (List Char) → List (List Char)
  | [] => []
  | l :: ls =>
    match splice ls with
    | [] => [l]
    | n :: ns =>
      if (l.getLast?.map Char.toNat) == some 92 then (l.dropLast ++ n) :: ns
      else l :: n :: ns

/-- Classify one logical line. -/
def classify (l : List Char) : Line :=
  match skipBlanks l with
  | [] => Line.blank
  | c :: rest =>
    if c.toNat == 47 && (rest.head?.map Char.toNat) == some 47 then
      Line.comment (String.mk (skipBlanks (rest.drop 1)))
    else if c.toNat == 35 then
      let d := spanChars isIdentChar (skipBlanks rest)
      if d.1 == "define".toList then
        let n := spanChars isIdentChar (skipBlanks d.2)
        match n.1, n.2 with
        | [], _ => Line.directive (String.mk (c :: rest))
        | m :: ms, [] =>
          if isIdentStart m then Line.define (String.mk (m :: ms)) []
          else Line.directive (String.mk (c :: rest))
        | m :: ms, b :: bs =>
          if isIdentStart m && isBlankChar b then
            Line.define (String.mk (m :: ms)) (tokenize (b :: bs).length (b :: bs))
          else Line.directive (String.mk (c :: rest))
      else Line.directive (String.mk (c :: rest))
    else Line.code (String.mk (c :: rest))

/-- The header as classified logical lines. -/
def headerLines : List Line :=
  (splice (serial_speed_h.map String.toList)).map classify

/-- The object-like macros a list of lines defines, in order. -/
def definesOf : List Line → List (String × List Tok)
  | [] => []
  | Line.define n b :: ls => (n, b) :: definesOf ls
  | _ :: ls => definesOf ls

/-- The definitions of `serial_speed.h`: each defined name with its body. -/
def definitions : List (String × List Tok) :=
  definesOf headerLines

/-- The names `serial_speed.h` defines. -/
def definedNames : List String :=
  definitions.map Prod.fst

/-- Body the header gives to `name`; the last definition of a name counts. -/
def bodyOf (name : String) : Option (List Tok) :=
  (definitions.reverse.find? (fun m => m.1 == name)).map Prod.snd

/-- True for a line that defines nothing and declares nothing. -/
def Line.isInert : Line → Bool
  | Line.blank => true
  | Line.comment _ => true
  | _ => false

/-- True for a `#define` line. -/
def Line.isDefine : Line → Bool
  | Line.define _ _ => true
  | _ => false

/-- The comment lines that stand right above the definition of `name`. -/
def docOf (name : String) : List Line → List String → List String
  | [], _ => []
  | Line.comment t :: ls, acc => docOf name ls (acc ++ [t])
  | Line.define n _ :: ls, acc => if n == name then acc else docOf name ls []
  | _ :: ls, _ => docOf name ls []

/-! ## Values -/

/-- Value of the identifier `name` where the header is included, in the token
environment `env` of the surrounding build.  A name the header defines is
replaced by its body, and the body is read again; a name under replacement is
not replaced a second time; a name the header does not define is looked up in
`env`.  `none` stands for a build that fails: the name is defined nowhere, or
the body is not a single constant. -/
def valueOf (env : String → Option Nat) : Nat → List String → String → Option Nat
  | 0, _, _ => none
  | fuel + 1, hidden, name =>
    if hidden.contains name then env name
    else
      match bodyOf name with
      | none => env name
      | some [Tok.intLit n] => some n
      | some [Tok.ident x] => valueOf env fuel (name :: hidden) x
      | some _ => none

/-- Host side: what `SERIAL_SPEED_SPEED_T` is worth in `mapper-devusb.c`. -/
def SERIAL_SPEED_SPEED_T (env : String → Option Nat) : Option Nat :=
  valueOf env (definitions.length + 1) [] "SERIAL_SPEED_SPEED_T"

/-- Device side: what `SERIAL_SPEED_INTEGER` is worth in `transcode.ino`. -/
def SERIAL_SPEED_INTEGER (env : String → Option Nat) : Option Nat :=
  valueOf env (definitions.length + 1) [] "SERIAL_SPEED_INTEGER"

/-! ## Host platforms -/

/-- One row of a termios speed table: the token, the `speed_t` value the token
stands for, and the rate in baud it denotes. -/
structure SpeedToken where
  name : String
  code : Nat
  baud : Nat
  deriving DecidableEq, Repr

/-- A host platform, as far as line speeds go: its speed table. -/
structure HostPlatform where
  table : List SpeedToken

/-- The token environment of a platform: the value of each token it defines. -/
def HostPlatform.env (P : HostPlatform) (name : String) : Option Nat :=
  (P.table.find? (fun t => t.name == name)).map SpeedToken.code

/-- The rate a `speed_t` value denotes on a platform, if it is one of the
platform's speeds. -/
def HostPlatform.baudOf (P : HostPlatform) (code : Nat) : Option Nat :=
  (P.table.find? (fun t => t.code == code)).map SpeedToken.baud

/-- The rate the host side asks for: the value of `SERIAL_SPEED_SPEED_T`,
read through the platform's speed table. -/
def hostRate (P : HostPlatform) : Option Nat :=
  (SERIAL_SPEED_SPEED_T P.env).bind P.baudOf

/-- Modelled from the spec: the token table of the host platform, which the
header uses through `B115200` and does not define.  These are the rows of the
Linux termios encoding (`B115200` is octal `0010002`), each token with the
rate its name gives. -/
def linux : HostPlatform where
  table :=
    [ ⟨"B0", 0o0, 0⟩, ⟨"B50", 0o1, 50⟩, ⟨"B75", 0o2, 75⟩, ⟨"B110", 0o3, 110⟩
    , ⟨"B134", 0o4, 134⟩, ⟨"B150", 0o5, 150⟩, ⟨"B200", 0o6, 200⟩
    , ⟨"B300", 0o7, 300⟩, ⟨"B600", 0o10, 600⟩, ⟨"B1200", 0o11, 1200⟩
    , ⟨"B1800", 0o12, 1800⟩, ⟨"B2400", 0o13, 2400⟩, ⟨"B4800", 0o14, 4800⟩
    , ⟨"B9600", 0o15, 9600⟩, ⟨"B19200", 0o16, 19200⟩, ⟨"B38400", 0o17, 38400⟩
    , ⟨"B57600", 0o10001, 57600⟩, ⟨"B115200", 0o10002, 115200⟩
    , ⟨"B230400", 0o10003, 230400⟩, ⟨"B460800", 0o10004, 460800⟩
    , ⟨"B500000", 0o10005, 500000⟩, ⟨"B576000", 0o10006, 576000⟩
    , ⟨"B921600", 0o10007, 921600⟩, ⟨"B1000000", 0o10010, 1000000⟩
    , ⟨"B1152000", 0o10011, 1152000⟩, ⟨"B1500000", 0o10012, 1500000⟩
    , ⟨"B2000000", 0o10013, 2000000⟩, ⟨"B2500000", 0o10014, 2500000⟩
    , ⟨"B3000000", 0o10015, 3000000⟩, ⟨"B3500000", 0o10016, 3500000⟩
    , ⟨"B4000000", 0o10017, 4000000⟩ ]

/-- C unsigned conversion to a type of `w` bits. -/
def toUnsigned (w n : Nat) : Nat :=
  n % 2 ^ w

/-! ## What the header defines -/

/-- The header defines `SERIAL_SPEED_SPEED_T` as the one identifier
`B115200`. -/
theorem bodyOf_speed_t :
    bodyOf "SERIAL_SPEED_SPEED_T" = some [Tok.ident "B115200"] := by
  decide

/-- The header defines `SERIAL_SPEED_INTEGER` as the one decimal constant
`115200`. -/
theorem bodyOf_integer :
    bodyOf "SERIAL_SPEED_INTEGER" = some [Tok.intLit 115200] := by
  decide

/-- The header does not define `B115200` itself. -/
theorem bodyOf_token : bodyOf "B115200" = none := by
  decide

/-- In every environment the host constant is the environment's `B115200`. -/
theorem speed_t_eq_token (env : String → Option Nat) :
    SERIAL_SPEED_SPEED_T env = env "B115200" := by
  have hlen : definitions.length + 1 = 1 + 1 + 1 := by decide
  have hne : ("B115200" == "SERIAL_SPEED_SPEED_T") = false := by decide
  unfold SERIAL_SPEED_SPEED_T
  rw [hlen]
  simp [valueOf, bodyOf_speed_t, bodyOf_token, hne]

/-- In every environment the device constant is 115200. -/
theorem integer_eq_literal (env : String → Option Nat) :
    SERIAL_SPEED_INTEGER env = some 115200 := by
  have hlen : definitions.length + 1 = 1 + 1 + 1 := by decide
  unfold SERIAL_SPEED_INTEGER
  rw [hlen]
  simp [valueOf, bodyOf_integer]

/-! ## The claims -/

/-- C1 (value equivalence, P1): on every host platform whose speed table
gives the token `B115200` the rate 115200 baud, the rate the host constant
`SERIAL_SPEED_SPEED_T` denotes, read through that table, is the value of the
device constant `SERIAL_SPEED_INTEGER`. -/
theorem C1_value_equivalence (P : HostPlatform)
    (hdoc : (P.env "B115200").bind P.baudOf = some 115200) :
    hostRate P = SERIAL_SPEED_INTEGER P.env := by
  rw [hostRate, speed_t_eq_token, integer_eq_literal, hdoc]

/-- Witness of C1 on the Linux table. -/
theorem C1_value_equivalence_witness :
    (linux.env "B115200").bind linux.baudOf = some 115200
      ∧ hostRate linux = SERIAL_SPEED_INTEGER linux.env :=
  ⟨by decide, C1_value_equivalence linux (by decide)⟩

/-- C2 (scenario value): the device constant `SERIAL_SPEED_INTEGER` is exactly
115200 in every build, and on Linux the host constant `SERIAL_SPEED_SPEED_T`
resolves to the rate 115200 baud. -/
theorem C2_scenario_value :
    (∀ env : String → Option Nat, SERIAL_SPEED_INTEGER env = some 115200)
      ∧ hostRate linux = some 115200 := by
  refine ⟨integer_eq_literal, ?_⟩
  rw [hostRate, speed_t_eq_token]
  decide

/-- C3 (build-time failure, P3): in every token environment, resolving
`SERIAL_SPEED_SPEED_T` gives no value exactly when the environment has no
`B115200`, and otherwise gives the environment's `B115200`: no other rate and
no fallback is ever put in its place. -/
theorem C3_no_fallback (env : String → Option Nat) :
    (SERIAL_SPEED_SPEED_T env = none ↔ env "B115200" = none)
      ∧ SERIAL_SPEED_SPEED_T env = env "B115200" := by
  rw [speed_t_eq_token]
  exact ⟨Iff.rfl, rfl⟩

/-- C4 (two constants and nothing else): the header defines exactly two
object-like macros, in this order: `SERIAL_SPEED_SPEED_T`, whose body is the
speed token `B115200` and which the comment above it gives to
`mapper-devusb.c` as a `speed_t` for `cfsetospeed`, and `SERIAL_SPEED_INTEGER`,
whose body is the integer constant `115200` and which the comment above it
gives to `transcode.ino` as a regular integer for `Serial.begin`.  Every other
line is blank or a comment: no function, no variable, no other directive. -/
theorem C4_exactly_two_constants :
    definitions
        = [ ("SERIAL_SPEED_SPEED_T", [Tok.ident "B115200"])
          , ("SERIAL_SPEED_INTEGER", [Tok.intLit 115200]) ]
      ∧ (headerLines.filter Line.isDefine).length = 2
      ∧ headerLines.all (fun l => l.isInert || l.isDefine) = true
      ∧ docOf "SERIAL_SPEED_SPEED_T" headerLines []
          = ["Used by mapper-devusb.c", "Constant is speed_t, to call cfsetospeed"]
      ∧ docOf "SERIAL_SPEED_INTEGER" headerLines []
          = [ "Used by transcode.ino"
            , "Constant is a regular integer, to call Serial.begin" ] := by
  refine ⟨?_, ?_, ?_, ?_, ?_⟩ <;> decide

/-- C5 as stated fails: the names the header defines are not exactly
`SPEED_T_VALUE` and `SPEED_INTEGER_VALUE`. -/
theorem C5_spec_names_counterexample :
    ¬ (∀ n : String,
        n ∈ definedNames ↔ (n = "SPEED_T_VALUE" ∨ n = "SPEED_INTEGER_VALUE")) := by
  intro h
  have hmem : "SPEED_T_VALUE" ∈ definedNames := (h "SPEED_T_VALUE").2 (Or.inl rfl)
  exact absurd hmem (by decide)

/-- C5 (amended): the names the header defines are exactly
`SERIAL_SPEED_SPEED_T` and `SERIAL_SPEED_INTEGER`. -/
theorem C5_defined_names (n : String) :
    n ∈ definedNames
      ↔ (n = "SERIAL_SPEED_SPEED_T" ∨ n = "SERIAL_SPEED_INTEGER") := by
  have hnames : definedNames = ["SERIAL_SPEED_SPEED_T", "SERIAL_SPEED_INTEGER"] := by
    decide
  rw [hnames]
  simp

/-- C6 (token, not rate): the body of `SERIAL_SPEED_SPEED_T` is the
identifier `B115200`, not an integer constant.  Under the Linux encoding its
value is octal 0010002, that is 4098, which is not the value 115200 of
`SERIAL_SPEED_INTEGER`.  Neither constant does the work of the other: 115200 is
no speed of the Linux table, so the host call has no rate for it, and 4098
taken as a rate in baud by the device call is not 115200, while the token
itself denotes 115200 baud. -/
theorem C6_token_not_rate :
    bodyOf "SERIAL_SPEED_SPEED_T" = some [Tok.ident "B115200"]
      ∧ SERIAL_SPEED_SPEED_T linux.env = some 0o10002
      ∧ SERIAL_SPEED_SPEED_T linux.env = some 4098
      ∧ SERIAL_SPEED_INTEGER linux.env = some 115200
      ∧ SERIAL_SPEED_SPEED_T linux.env ≠ SERIAL_SPEED_INTEGER linux.env
      ∧ (SERIAL_SPEED_INTEGER linux.env).bind linux.baudOf = none
      ∧ (SERIAL_SPEED_SPEED_T linux.env).bind linux.baudOf = some 115200
      ∧ (SERIAL_SPEED_SPEED_T linux.env).map (toUnsigned 32) = some 4098
      ∧ (SERIAL_SPEED_SPEED_T linux.env).map (toUnsigned 32)
          ≠ SERIAL_SPEED_INTEGER linux.env := by
  rw [speed_t_eq_token, integer_eq_literal]
  refine ⟨bodyOf_speed_t, ?_, ?_, rfl, ?_, ?_, ?_, ?_, ?_⟩ <;> decide

/-- C8 (width of the device constant): in every build the value of
`SERIAL_SPEED_INTEGER` is above 32767 and above 65535, so it fits no 16-bit
int, signed or unsigned, and cut to 16 bits it becomes 49664; it is below
2^31, and cut to 32 bits it is unchanged, so a 32-bit unsigned long parameter
receives 115200 where a 16-bit one would receive another rate. -/
theorem C8_literal_width (env : String → Option Nat) :
    ∃ n : Nat, SERIAL_SPEED_INTEGER env = some n
      ∧ n = 115200
      ∧ 32767 < n ∧ 65535 < n
      ∧ n % 2 ^ 16 = 49664 ∧ toUnsigned 16 n ≠ n
      ∧ n < 2 ^ 31
      ∧ n % 2 ^ 32 = n ∧ toUnsigned 32 n = 115200 := by
  refine ⟨115200, integer_eq_literal env, rfl, ?_, ?_, ?_, ?_, ?_, ?_, ?_⟩ <;>
    simp [toUnsigned]

end SerialSpeed
